import Mathlib

/-
Verification of the annotation data layer of `genedescriptions/data_fetcher.py`.

The relevant Python functions are embedded shallowly:
  * strings are Lean `String`s; Python `str.strip`, `str.split(sep)`,
    `str.replace`, `str.startswith`, `str.endswith` are modelled by the
    `py*` helpers below;
  * Python dicts (which preserve insertion order, update in place on an
    existing key and append new keys at the end) are modelled as
    association lists `List (String × α)` manipulated through
    `pyDictInsert` / `dictFind`;
  * operations that would raise in Python (`IndexError` on a too-short
    row) return `Option`, `none` marking the exception;
  * filesystem and network effects of `_get_cached_file` are modelled by
    an explicit state (`FsState`) recording which paths exist on disk and
    how many remote fetches happened.
-/

set_option autoImplicit false
set_option linter.unusedVariables false

namespace GeneDesc

/-! ### Python string primitives -/

/-- Characters removed by Python `str.strip()` (ASCII whitespace). -/
def isPySpace (c : Char) : Bool :=
  c == ' ' || c == '\t' || c == '\n' || c == '\r' || c == '\x0b' || c == '\x0c'

/-- Python `str.strip()`. -/
def pyStrip (s : String) : String :=
  ⟨((s.data.dropWhile isPySpace).reverse.dropWhile isPySpace).reverse⟩

/-- Split a character list at every occurrence of `sep`, keeping empty
segments, as Python `str.split(sep)` does for a one-character separator. -/
def splitCharList (sep : Char) : List Char → List (List Char)
  | [] => [[]]
  | c :: rest =>
    if c == sep then
      [] :: splitCharList sep rest
    else
      match splitCharList sep rest with
      | [] => [[c]]
      | h :: t => (c :: h) :: t

/-- Python `s.split(sep)` for a one-character separator `sep`. -/
def pySplit (s : String) (sep : Char) : List String :=
  (splitCharList sep s.data).map String.mk

/-- Auxiliary worker for `pyReplace`; `fuel` bounds the recursion and is
instantiated with the length of the subject string. -/
def pyReplaceAux (pat repl : List Char) : Nat → List Char → List Char
  | 0, s => s
  | _ + 1, [] => []
  | fuel + 1, c :: rest =>
    if pat.isPrefixOf (c :: rest) then
      repl ++ pyReplaceAux pat repl fuel ((c :: rest).drop pat.length)
    else
      c :: pyReplaceAux pat repl fuel rest

/-- Python `s.replace(pat, repl)`: replace every non-overlapping occurrence
of `pat`, scanning left to right (used only with the non-empty pattern
`".gz"`). -/
def pyReplace (s pat repl : String) : String :=
  ⟨pyReplaceAux pat.data repl.data s.data.length s.data⟩

/-- Python `s.startswith(p)`. -/
def pyStartsWith (s p : String) : Bool :=
  p.data.isPrefixOf s.data

/-- Python `s.endswith(p)`. -/
def pyEndsWith (s p : String) : Bool :=
  p.data.isSuffixOf s.data

/-! ### Python dict as an insertion-ordered association list -/

/-- Find the value bound to `key`, scanning left to right (Python dict
lookup; keys are unique in any list built by `pyDictInsert`). -/
def dictFind {α : Type} : List (String × α) → String → Option α
  | [], _ => none
  | (k, v) :: rest, key => if k = key then some v else dictFind rest key

/-- Python `d[k] = v`: update in place when `k` is already a key (keeping
its position), otherwise append the new binding at the end. -/
def pyDictInsert {α : Type} (d : List (String × α)) (k : String) (v : α) :
    List (String × α) :=
  if (dictFind d k).isSome then
    d.map (fun p => if p.1 = k then (p.1, v) else p)
  else
    d ++ [(k, v)]

/-- Python `dict(pairs)`: fold the pairs into an empty dict. -/
def pyDictOfList {α : Type} (l : List (String × α)) : List (String × α) :=
  l.foldl (fun d kv => pyDictInsert d kv.1 kv.2) []

/-! ### Data model -/

/-- One raw association record, as the dictionaries handled by
`data_fetcher.py`: `subjectId` is `annotation["subject"]["id"]`, `objectId`
is `annotation["object"]["id"]`, `evidenceType` is
`annotation["evidence"]["type"]`, and so on.  Fields that the code only
ever sets to constants (`aspect`, `relation`, `negated`, `fullname`,
`synonyms`, `with_support_from`) are omitted. -/
structure Annot where
  subjectId : String
  objectId : String
  evidenceType : String
  qualifiers : List String := []
  sourceLine : String := ""
  subjectLabel : String := ""
  subjectType : String := ""
  taxonId : String := ""
  refs : List String := []
  providedBy : String := ""
  date : String := ""
deriving DecidableEq, Repr

/-- An ontobio `AssociationSet`, reduced to the only structure the code
reads: `associations_by_subj`, a dict from subject gene id to the ordered
records for that subject. -/
structure AssocSet where
  associations_by_subj : List (String × List Annot)
deriving DecidableEq, Repr

/-- Modelled from the spec: ontobio's
`AssociationSetFactory().create_from_assocs` is external to this
repository; spec §4.3 describes it as "group raw records by subject id
preserving original order", with no filtering of its own.  Keys appear in
first-occurrence order, each mapped to the subsequence of records carrying
that subject id. -/
def create_from_assocs (assocs : List Annot) : AssocSet :=
  ⟨((assocs.map (fun a => a.subjectId)).dedup).map
    (fun s => (s, assocs.filter (fun a => a.subjectId = s)))⟩

/-- ontobio `AssociationSet.associations(subject)`: the records for one
subject, empty when the subject is unknown. -/
def AssocSet.associations (s : AssocSet) (gene_id : String) : List Annot :=
  (dictFind s.associations_by_subj gene_id).getD []

/-- All records of the set, in the order the Python code's nested loop
`for subj_associations in ...values(): for association in subj_associations`
visits them. -/
def allAssociations (s : AssocSet) : List Annot :=
  (s.associations_by_subj.map (fun p => p.2)).flatten

/-- `DataFetcher.remove_blacklisted_annotations` (data_fetcher.py:75-92):
flatten `associations_by_subj`, keep the records whose
`association["object"]["id"]` is not blacklisted, and rebuild an
association set from the survivors. -/
def remove_blacklisted_annotations (association_set : AssocSet)
    (terms_blacklist : List String) : AssocSet :=
  create_from_assocs
    ((allAssociations association_set).filter
      (fun a => ! terms_blacklist.contains a.objectId))

/-! ### `get_annotations_for_gene` (data_fetcher.py:201-253)

The ontology is abstracted as its `is_obsolete` test, a `String → Bool`
function, matching the spec's external-collaborator boundary for the
ontology graph. -/

/-- `dict(zip(priority_list, reversed(range(len(list(priority_list))))))`
(data_fetcher.py:235): pair each evidence code with `n - 1 - index` and
build a Python dict. -/
def priorityMap (priority_list : List String) : List (String × Nat) :=
  pyDictOfList (priority_list.zip (List.range priority_list.length).reverse)

/-- The list comprehension at data_fetcher.py:236-239: the gene's records,
minus obsolete terms (unless `include_obsolete`) and negated records
(unless `include_negative_results`). -/
def filteredAnns (dataset : AssocSet) (is_obsolete : String → Bool)
    (gene_id : String) (include_obsolete include_negative_results : Bool) :
    List Annot :=
  (dataset.associations gene_id).filter
    (fun a => (include_obsolete || ! is_obsolete a.objectId)
      && (include_negative_results || ! a.qualifiers.contains "NOT"))

/-- One iteration of the selection loop at data_fetcher.py:243-250 over the
dict `id_selected_annotation`.  A record whose evidence code is outside
`priority_map` is skipped; a record for a new term is inserted; a record
for an already-selected term replaces the entry only when its rank is
strictly greater.  (The `getD 0` lookup of the stored record's rank mirrors
`priority_map[...]`; it cannot miss, because only records whose evidence
code is in `priority_map` are ever stored.) -/
def selectStep (priority_map : List (String × Nat))
    (sel : List (String × Annot)) (a : Annot) : List (String × Annot) :=
  match dictFind priority_map a.evidenceType with
  | none => sel
  | some rank =>
    match dictFind sel a.objectId with
    | none => sel ++ [(a.objectId, a)]
    | some prev =>
      if (dictFind priority_map prev.evidenceType).getD 0 < rank then
        sel.map (fun p => if p.1 = a.objectId then (p.1, a) else p)
      else sel

/-- `DataFetcher.get_annotations_for_gene` (data_fetcher.py:201-253) with
the dataset/ontology pair already resolved from `annot_type`; the
`desc_stats` out-parameter only records counts and does not affect the
returned list, so it is omitted.  Returns
`list(id_selected_annotation.values())`. -/
def get_annotations_for_gene (dataset : AssocSet) (is_obsolete : String → Bool)
    (gene_id : String) (include_obsolete include_negative_results : Bool)
    (priority_list : List String) : List Annot :=
  ((filteredAnns dataset is_obsolete gene_id include_obsolete
      include_negative_results).foldl
    (selectStep (priorityMap priority_list)) []).map (fun p => p.2)

/-! ### Gene catalog (data_fetcher.py:19, 61-73, 312-321) -/

/-- `Gene = namedtuple('Gene', ['id', 'name', 'dead', 'pseudo'])`. -/
structure Gene where
  id : String
  name : String
  dead : Bool
  pseudo : Bool
deriving DecidableEq, Repr

/-- One iteration of the loop in `WBDataFetcher.load_gene_data_from_file`
(data_fetcher.py:318-321): `fields = line.strip().split(',')`,
`name = fields[2] if fields[2] != '' else fields[3]`, then
`Gene("WB:" + fields[1], name, fields[4] == "Dead", False)`.
`none` marks the `IndexError` Python raises on a too-short row; Python
reads `fields[3]` only when `fields[2]` is empty. -/
def parseGeneRow (line : String) : Option Gene :=
  let fields := pySplit (pyStrip line) ','
  match fields.get? 2 with
  | none => none
  | some f2 =>
    match (if f2 ≠ "" then some f2 else fields.get? 3),
        fields.get? 1, fields.get? 4 with
    | some name, some f1, some f4 =>
      some ⟨"WB:" ++ f1, name, f4 = "Dead", false⟩
    | _, _, _ => none

/-- `WBDataFetcher.load_gene_data_from_file` (data_fetcher.py:312-321) on
the lines of the resolved gene-list file: fold each parsed row into the
`gene_data` dict under key `"WB:" + fields[1]` (which is the gene's id). -/
def load_gene_data_from_file (lines : List String) :
    Option (List (String × Gene)) :=
  lines.foldlM
    (fun d line => (parseGeneRow line).map (fun g => pyDictInsert d g.id g))
    []

/-- `DataFetcher.get_gene_data` (data_fetcher.py:61-73): yields nothing
when `gene_data` is unset (`None`) or empty, otherwise yields the genes in
dict order, keeping a gene iff
`(include_dead_genes or not dead) and (include_pseudo_genes or not pseudo)`. -/
def get_gene_data (gene_data : Option (List (String × Gene)))
    (include_dead_genes include_pseudo_genes : Bool) : List Gene :=
  match gene_data with
  | none => []
  | some gd =>
    if ! gd.isEmpty && gd.length > 0 then
      (gd.map (fun p => p.2)).filter
        (fun g => (include_dead_genes || ! g.dead)
          && (include_pseudo_genes || ! g.pseudo))
    else []

/-! ### `_get_cached_file` (data_fetcher.py:48-59) -/

/-- The effects `_get_cached_file` can have: `files` is the set of paths
present on disk (as a list), `fetches` counts calls to
`urllib.request.urlretrieve`. -/
structure FsState where
  files : List String
  fetches : Nat
deriving DecidableEq, Repr

/-- `DataFetcher._get_cached_file` (data_fetcher.py:48-59).  Fetch when the
file is absent, or present with `use_cache` false; then, when the path ends
in `".gz"`, decompress next to it (the sibling path is
`cache_path.replace(".gz", "")`) and return the sibling, else return
`cache_path` itself.  The remote url only supplies content, which is not
modelled. -/
def get_cached_file (st : FsState) (use_cache : Bool)
    (cache_path file_source_url : String) : FsState × String :=
  let st1 :=
    if cache_path ∉ st.files then
      { files := st.files ++ [cache_path], fetches := st.fetches + 1 }
    else if use_cache = false then
      { st with fetches := st.fetches + 1 }
    else st
  if pyEndsWith cache_path ".gz" then
    let out := pyReplace cache_path ".gz" ""
    ({ st1 with files := if out ∈ st1.files then st1.files else st1.files ++ [out] },
      out)
  else (st1, cache_path)

/-! ### DO branch of `WBDataFetcher.load_associations_from_file`
(data_fetcher.py:329-380)

The disease ontology is abstracted as its membership test
`do_ontology.node(·)`, a `String → Bool` function. -/

/-- One data row of the rich-text disease-annotation file
(data_fetcher.py:346-373): `linearr = line.strip().split("\t")`; the row is
kept only when `do_ontology.node(linearr[10])` holds and
`linearr[16] != "IEA"` (short-circuit: `linearr[16]` is read only when the
term exists).  Outcomes: `none` — Python raises `IndexError` (row shorter
than the schema, or `line[1]` out of range); `some none` — the row is
filtered out; `some (some a)` — the record `a` is appended. -/
def parseRichRow (node : String → Bool) (line : String) :
    Option (Option Annot) :=
  let linearr := pySplit (pyStrip line) '\t'
  match linearr.get? 10 with
  | none => none
  | some termId =>
    if node termId = false then some none
    else
      match linearr.get? 16 with
      | none => none
      | some ev =>
        if ev = "IEA" then some none
        else
          match linearr.get? 0, linearr.get? 2, linearr.get? 3,
              linearr.get? 9, linearr.get? 18, linearr.get? 19,
              linearr.get? 20, line.data.get? 1 with
          | some taxon, some subjId, some subjLabel, some quals, some refs,
              some date, some provider, some c =>
            some (some
              { subjectId := subjId
                objectId := termId
                evidenceType := ev
                qualifiers := pySplit quals '|'
                sourceLine := line
                subjectLabel := subjLabel
                subjectType := String.mk [c]
                taxonId := taxon
                refs := pySplit refs '|'
                providedBy := provider
                date := date })
          | _, _, _, _, _, _, _, _ => none

/-- The reading loop at data_fetcher.py:342-375: skip lines that strip to a
`"!"`-prefixed comment, consume exactly one further line as the header, and
parse every remaining line with `parseRichRow`, aborting (`none`) when a
row raises. -/
def parseRichLines (node : String → Bool) :
    List String → Bool → Option (List Annot)
  | [], _ => some []
  | line :: rest, header =>
    if pyStartsWith (pyStrip line) "!" then parseRichLines node rest header
    else if header then parseRichLines node rest false
    else
      match parseRichRow node line with
      | none => none
      | some none => parseRichLines node rest false
      | some (some a) => (parseRichLines node rest false).map (fun l => a :: l)

/-- The data rows of the rich-text file: same comment/header skipping as
`parseRichLines`, returning the surviving raw lines. -/
def dataRows : List String → Bool → List String
  | [], _ => []
  | line :: rest, header =>
    if pyStartsWith (pyStrip line) "!" then dataRows rest header
    else if header then dataRows rest false
    else line :: dataRows rest false

/-- The merged raw-record stream built by the DO branch of
`WBDataFetcher.load_associations_from_file` (data_fetcher.py:330-375),
before the final `create_from_assocs` / blacklist step: the GAF-parsed
tabular records (`tab`) regrouped by subject, flattened, and kept only when
`association["evidence"]["type"] == "IEA"`, followed by the rich-text rows
accepted by `parseRichRow`. -/
def doMergedStream (tab : List Annot) (node : String → Bool)
    (lines : List String) : Option (List Annot) :=
  let iea := (allAssociations (create_from_assocs tab)).filter
    (fun a => a.evidenceType = "IEA")
  (parseRichLines node lines true).map (fun rich => iea ++ rich)

/-- The DO branch end to end: the merged stream regrouped into an
association set with the blacklist applied (data_fetcher.py:376-380). -/
def load_do_associations_from_file (tab : List Annot) (node : String → Bool)
    (lines : List String) (exclusion_list : List String) : Option AssocSet :=
  (doMergedStream tab node lines).map
    (fun assocs =>
      remove_blacklisted_annotations (create_from_assocs assocs) exclusion_list)

/-! ### Association-list lemmas -/

theorem dictFind_eq_none {α : Type} (d : List (String × α)) (k : String) :
    dictFind d k = none ↔ k ∉ d.map (fun p => p.1) := by
  induction d with
  | nil => simp [dictFind]
  | cons p rest ih =>
    obtain ⟨k1, v1⟩ := p
    by_cases hk : k1 = k
    · subst hk
      simp [dictFind]
    · simp [dictFind, hk, ih, Ne.symm hk]

theorem dictFind_append {α : Type} (d1 d2 : List (String × α)) (k : String) :
    dictFind (d1 ++ d2) k
      = match dictFind d1 k with
        | some v => some v
        | none => dictFind d2 k := by
  induction d1 with
  | nil => simp [dictFind]
  | cons p rest ih =>
    by_cases hk : p.1 = k
    · simp [dictFind, hk]
    · simp [dictFind, hk, ih]

theorem dictFind_map_apply {α : Type} (l : List String) (f : String → α)
    (g : String) :
    dictFind (l.map (fun s => (s, f s))) g
      = if g ∈ l then some (f g) else none := by
  induction l with
  | nil => simp [dictFind]
  | cons s rest ih =>
    by_cases hs : s = g
    · subst hs
      simp [dictFind]
    · simp [dictFind, hs, ih, Ne.symm hs]

/-! ### Claim C10 -/

/-- Claim C10: calling `get_gene_data` before any gene data has been loaded
(`gene_data` unset, i.e. `None`, or an empty catalog) yields the empty
sequence for every combination of the two boolean flags, rather than
raising an error. -/
theorem get_gene_data_unloaded_empty
    (include_dead_genes include_pseudo_genes : Bool) :
    get_gene_data none include_dead_genes include_pseudo_genes = []
    ∧ get_gene_data (some []) include_dead_genes include_pseudo_genes = [] :=
  ⟨rfl, rfl⟩

/-! ### Claim C8 -/

/-- Claim C8: iterating `get_gene_data` with `include_dead_genes = false`
and `include_pseudo_genes = false` never yields a `Gene` whose `dead` flag
or `pseudo` flag is true, for every loaded catalog. -/
theorem get_gene_data_filters_dead_pseudo
    (gene_data : Option (List (String × Gene))) (g : Gene)
    (h : g ∈ get_gene_data gene_data false false) :
    g.dead = false ∧ g.pseudo = false := by
  cases gene_data with
  | none => simp [get_gene_data] at h
  | some gd =>
    by_cases hgd : (! gd.isEmpty && gd.length > 0) = true
    · simp only [get_gene_data, hgd, if_true] at h
      have := (List.mem_filter.mp h).2
      simp only [Bool.false_or, Bool.and_eq_true, Bool.not_eq_true'] at this
      exact this
    · simp [get_gene_data, hgd] at h

/-- Witness for C8: a live, non-pseudo gene is yielded and indeed carries
`dead = false` and `pseudo = false`. -/
theorem get_gene_data_filters_dead_pseudo_witness :
    (⟨"WB:WBGene00000001", "aap-1", false, false⟩ : Gene)
      ∈ get_gene_data
          (some [("WB:WBGene00000001", ⟨"WB:WBGene00000001", "aap-1", false, false⟩)])
          false false
    ∧ (⟨"WB:WBGene00000001", "aap-1", false, false⟩ : Gene).dead = false
    ∧ (⟨"WB:WBGene00000001", "aap-1", false, false⟩ : Gene).pseudo = false := by
  refine ⟨by decide, ?_⟩
  exact get_gene_data_filters_dead_pseudo
    (some [("WB:WBGene00000001", ⟨"WB:WBGene00000001", "aap-1", false, false⟩)])
    ⟨"WB:WBGene00000001", "aap-1", false, false⟩ (by decide)

/-! ### Claim C6 -/

/-- Claim C6: for every cache path at which a file already exists, calling
`_get_cached_file` twice with `use_cache = true` performs zero remote
fetches (the fetch counter is unchanged after both calls) and returns the
same local file path both times. -/
theorem get_cached_file_idempotent (st : FsState) (cp u1 u2 : String)
    (h : cp ∈ st.files) :
    (get_cached_file st true cp u1).1.fetches = st.fetches
    ∧ (get_cached_file (get_cached_file st true cp u1).1 true cp u2).1.fetches
        = st.fetches
    ∧ (get_cached_file (get_cached_file st true cp u1).1 true cp u2).2
        = (get_cached_file st true cp u1).2 := by
  by_cases hgz : pyEndsWith cp ".gz" = true
  · by_cases hout : pyReplace cp ".gz" "" ∈ st.files
    · simp [get_cached_file, h, hgz, hout]
    · have h2 : cp ∈ st.files ++ [pyReplace cp ".gz" ""] :=
        List.mem_append_left _ h
      have hout2 : pyReplace cp ".gz" "" ∈ st.files ++ [pyReplace cp ".gz" ""] :=
        List.mem_append_right _ (List.mem_singleton.mpr rfl)
      simp [get_cached_file, h, hgz, hout, h2, hout2]
  · simp [get_cached_file, h, hgz]

/-- Witness for C6: with `"f.gz"` already on disk, two cached resolutions
fetch nothing and agree on the returned path. -/
theorem get_cached_file_idempotent_witness :
    "f.gz" ∈ (⟨["f.gz"], 0⟩ : FsState).files
    ∧ ((get_cached_file ⟨["f.gz"], 0⟩ true "f.gz" "u1").1.fetches
          = (⟨["f.gz"], 0⟩ : FsState).fetches
       ∧ (get_cached_file (get_cached_file ⟨["f.gz"], 0⟩ true "f.gz" "u1").1
            true "f.gz" "u2").1.fetches = (⟨["f.gz"], 0⟩ : FsState).fetches
       ∧ (get_cached_file (get_cached_file ⟨["f.gz"], 0⟩ true "f.gz" "u1").1
            true "f.gz" "u2").2
          = (get_cached_file ⟨["f.gz"], 0⟩ true "f.gz" "u1").2) :=
  ⟨by decide, get_cached_file_idempotent ⟨["f.gz"], 0⟩ "f.gz" "u1" "u2" (by decide)⟩

/-! ### Gene-row parsing lemmas (C7, C9) -/

/-- Full characterization of a successfully parsed gene row: the id is
`"WB:"` ++ field 1, the name is field 2 or (when field 2 is empty) field 3,
the dead flag tests field 4 against `"Dead"`, and the pseudo flag is always
false.  (Fields are 0-indexed here; the spec's "column 2..5" are 1-indexed.) -/
theorem parseGeneRow_char (line : String) (g : Gene)
    (h : parseGeneRow line = some g) :
    g.pseudo = false
    ∧ (∃ f1, (pySplit (pyStrip line) ',').get? 1 = some f1
        ∧ g.id = "WB:" ++ f1)
    ∧ (∃ f2, (pySplit (pyStrip line) ',').get? 2 = some f2
        ∧ ((f2 ≠ "" ∧ g.name = f2)
           ∨ (f2 = "" ∧ (pySplit (pyStrip line) ',').get? 3 = some g.name)))
    ∧ (∃ f4, (pySplit (pyStrip line) ',').get? 4 = some f4
        ∧ (g.dead = true ↔ f4 = "Dead")) := by
  simp only [parseGeneRow] at h
  split at h
  · exact absurd h (by simp)
  rename_i f2 hf2
  split at h
  case h_2 => exact absurd h (by simp)
  rename_i name f1 f4 hname hf1 hf4
  cases h
  refine ⟨rfl, ⟨f1, hf1, rfl⟩, ⟨f2, hf2, ?_⟩, ⟨f4, hf4, by simp⟩⟩
  by_cases hf2e : f2 = ""
  · rw [if_neg (by simpa using hf2e)] at hname
    exact Or.inr ⟨hf2e, hname⟩
  · rw [if_pos hf2e] at hname
    exact Or.inl ⟨hf2e, (Option.some_inj.mp hname).symm⟩

/-! ### Claim C7 -/

/-- Claim C7: `load_gene_data_from_file` builds, from every gene-list row,
a `Gene` whose id is column 2 prefixed with the organism tag `"WB:"`, whose
name is column 3 or — when column 3 is empty — column 4, and whose dead
flag is true exactly when column 5 equals `"Dead"` (columns 1-indexed,
fields 0-indexed); in particular the row
`"6239,WBGene00000001,aap-1,,Live"` yields
`Gene {id := "WB:WBGene00000001", name := "aap-1", dead := false,
pseudo := false}`. -/
theorem parseGeneRow_spec (line : String) (g : Gene)
    (h : parseGeneRow line = some g) :
    (∃ f1, (pySplit (pyStrip line) ',').get? 1 = some f1
        ∧ g.id = "WB:" ++ f1)
    ∧ (∃ f2, (pySplit (pyStrip line) ',').get? 2 = some f2
        ∧ ((f2 ≠ "" ∧ g.name = f2)
           ∨ (f2 = "" ∧ (pySplit (pyStrip line) ',').get? 3 = some g.name)))
    ∧ (∃ f4, (pySplit (pyStrip line) ',').get? 4 = some f4
        ∧ (g.dead = true ↔ f4 = "Dead"))
    ∧ g.pseudo = false
    ∧ parseGeneRow "6239,WBGene00000001,aap-1,,Live"
        = some ⟨"WB:WBGene00000001", "aap-1", false, false⟩ := by
  obtain ⟨hp, h1, h2, h4⟩ := parseGeneRow_char line g h
  exact ⟨h1, h2, h4, hp, by decide⟩

/-- Witness for C7: the end-to-end scenario row parses, and the parsed
gene has `pseudo = false` and matches the expected record. -/
theorem parseGeneRow_spec_witness :
    parseGeneRow "6239,WBGene00000001,aap-1,,Live"
      = some ⟨"WB:WBGene00000001", "aap-1", false, false⟩
    ∧ (⟨"WB:WBGene00000001", "aap-1", false, false⟩ : Gene).pseudo = false :=
  ⟨by decide,
    (parseGeneRow_spec "6239,WBGene00000001,aap-1,,Live"
      ⟨"WB:WBGene00000001", "aap-1", false, false⟩ (by decide)).2.2.2.1⟩

/-! ### Claim C9 -/

/-- Inserting a value satisfying `P` into a dict whose values all satisfy
`P` keeps every value satisfying `P`. -/
theorem pyDictInsert_forall {α : Type} (P : α → Prop) (d : List (String × α))
    (k : String) (v : α) (hd : ∀ p ∈ d, P p.2) (hv : P v) :
    ∀ p ∈ pyDictInsert d k v, P p.2 := by
  intro p hp
  unfold pyDictInsert at hp
  by_cases hs : (dictFind d k).isSome
  · rw [if_pos hs] at hp
    obtain ⟨q, hq, rfl⟩ := List.mem_map.mp hp
    split
    · exact hv
    · exact hd q hq
  · rw [if_neg hs] at hp
    rcases List.mem_append.mp hp with hq | hq
    · exact hd p hq
    · rw [List.mem_singleton.mp hq]
      exact hv

/-- Every row accepted by `parseGeneRow` has `pseudo = false`. -/
theorem parseGeneRow_pseudo (line : String) (g : Gene)
    (h : parseGeneRow line = some g) : g.pseudo = false :=
  (parseGeneRow_char line g h).1

/-- The gene-data fold preserves "every stored gene has
`pseudo = false`". -/
theorem load_gene_aux (lines : List String) (d0 d : List (String × Gene))
    (h0 : ∀ p ∈ d0, p.2.pseudo = false)
    (h : List.foldlM (fun d line =>
          (parseGeneRow line).map (fun g => pyDictInsert d g.id g)) d0 lines
        = some d) :
    ∀ p ∈ d, p.2.pseudo = false := by
  induction lines generalizing d0 with
  | nil =>
    simp only [List.foldlM_nil] at h
    cases h
    exact h0
  | cons line rest ih =>
    rw [List.foldlM_cons] at h
    cases hg : parseGeneRow line with
    | none => rw [hg] at h; simp at h
    | some g =>
      rw [hg] at h
      simp only [Option.map_some', Option.some_bind] at h
      exact ih (pyDictInsert d0 g.id g)
        (pyDictInsert_forall (fun x => x.pseudo = false) d0 g.id g h0
          (parseGeneRow_pseudo line g hg)) h

/-- Claim C9: every `Gene` constructed by `load_gene_data_from_file` has
`pseudo = false`, for every input gene-list file; consequently, on a
catalog loaded from file, the `include_pseudo_genes` flag of
`get_gene_data` has no observable effect. -/
theorem load_gene_data_pseudo_invariant (lines : List String)
    (d : List (String × Gene))
    (h : load_gene_data_from_file lines = some d) :
    (∀ p ∈ d, p.2.pseudo = false)
    ∧ ∀ include_dead_genes : Bool,
        get_gene_data (some d) include_dead_genes true
          = get_gene_data (some d) include_dead_genes false := by
  have hps : ∀ p ∈ d, p.2.pseudo = false := load_gene_aux lines [] d (by simp) h
  refine ⟨hps, fun incl => ?_⟩
  show (if ! d.isEmpty && d.length > 0 then _ else [])
    = (if ! d.isEmpty && d.length > 0 then _ else [])
  by_cases hgd : (! d.isEmpty && d.length > 0) = true
  · rw [if_pos hgd, if_pos hgd]
    apply List.filter_congr
    intro g hg
    obtain ⟨p, hp, rfl⟩ := List.mem_map.mp hg
    rw [hps p hp]
    simp
  · rw [if_neg hgd, if_neg hgd]

/-- Witness for C9: a one-row gene file loads, and toggling
`include_pseudo_genes` does not change the iteration. -/
theorem load_gene_data_pseudo_invariant_witness :
    load_gene_data_from_file ["6239,WBGene00000001,aap-1,,Live"]
      = some ((load_gene_data_from_file
                ["6239,WBGene00000001,aap-1,,Live"]).getD [])
    ∧ get_gene_data
        (some ((load_gene_data_from_file
                ["6239,WBGene00000001,aap-1,,Live"]).getD [])) false true
      = get_gene_data
          (some ((load_gene_data_from_file
                  ["6239,WBGene00000001,aap-1,,Live"]).getD [])) false false :=
  ⟨by decide,
    (load_gene_data_pseudo_invariant ["6239,WBGene00000001,aap-1,,Live"]
      ((load_gene_data_from_file
        ["6239,WBGene00000001,aap-1,,Live"]).getD []) (by decide)).2 false⟩

/-! ### Claim C5 -/

/-- Looking up a subject in a rebuilt association set gives exactly the
input records carrying that subject id, in order. -/
theorem create_from_assocs_associations (assocs : List Annot) (g : String) :
    (create_from_assocs assocs).associations g
      = assocs.filter (fun a => a.subjectId = g) := by
  unfold create_from_assocs AssocSet.associations
  simp only
  rw [dictFind_map_apply]
  by_cases hg : g ∈ (assocs.map (fun a => a.subjectId)).dedup
  · rw [if_pos hg]
    rfl
  · rw [if_neg hg]
    refine (List.filter_eq_nil_iff.mpr ?_).symm
    intro a ha
    simp only [decide_eq_true_eq]
    intro hsub
    exact hg (List.mem_dedup.mpr (List.mem_map.mpr ⟨a, ha, hsub⟩))

/-- Claim C5: `remove_blacklisted_annotations` returns an association set
containing, for every subject, exactly the input records whose object term
id is not blacklisted — blacklisted-term records are dropped, all others
retained with duplicates preserved and in order (the embedding is pure, so
the ontology and the input records are trivially not mutated). -/
theorem remove_blacklisted_exact (s : AssocSet) (bl : List String)
    (g : String) :
    (remove_blacklisted_annotations s bl).associations g
      = (allAssociations s).filter
          (fun a => decide (a.subjectId = g) && ! bl.contains a.objectId) := by
  unfold remove_blacklisted_annotations
  rw [create_from_assocs_associations, List.filter_filter]

/-! ### Priority-map lemmas (C1) -/

theorem foldl_pyDictInsert_of_nodup {α : Type} (l : List (String × α)) :
    ∀ d : List (String × α), ((d ++ l).map (fun p => p.1)).Nodup →
      l.foldl (fun d kv => pyDictInsert d kv.1 kv.2) d = d ++ l := by
  induction l with
  | nil => intro d _; simp
  | cons kv t ih =>
    intro d h
    have hk : kv.1 ∉ d.map (fun p => p.1) := by
      simp only [List.map_append, List.map_cons, List.nodup_append] at h
      exact fun hmem => h.2.2 hmem (List.mem_cons_self _ _)
    have hfind : dictFind d kv.1 = none := (dictFind_eq_none d kv.1).mpr hk
    rw [List.foldl_cons]
    have hins : pyDictInsert d kv.1 kv.2 = d ++ [kv] := by
      unfold pyDictInsert
      rw [hfind]
      simp
    rw [hins, ih (d ++ [kv]) (by simpa [List.append_assoc] using h)]
    simp

theorem pyDictOfList_eq_self {α : Type} (l : List (String × α))
    (h : (l.map (fun p => p.1)).Nodup) : pyDictOfList l = l := by
  simpa [pyDictOfList] using foldl_pyDictInsert_of_nodup l [] (by simpa using h)

theorem dictFind_zip {α : Type} (ks : List String) :
    ∀ (vs : List α), ks.Nodup → ∀ (i : Nat) (hik : i < ks.length)
      (hiv : i < vs.length),
      dictFind (ks.zip vs) (ks.get ⟨i, hik⟩) = some (vs.get ⟨i, hiv⟩) := by
  induction ks with
  | nil => intro vs _ i hik; exact absurd hik (by simp)
  | cons k kt ih =>
    intro vs hnd i hik hiv
    cases vs with
    | nil => exact absurd hiv (by simp)
    | cons v vt =>
      cases i with
      | zero => simp [dictFind]
      | succ n =>
        have hmem : kt.get ⟨n, by simpa using hik⟩ ∈ kt := List.get_mem kt _ _
        have hk : k ≠ kt.get ⟨n, by simpa using hik⟩ :=
          fun he => (List.nodup_cons.mp hnd).1 (he ▸ hmem)
        simp only [List.zip_cons_cons, dictFind, List.get_cons_succ]
        rw [if_neg hk]
        exact ih vt (List.nodup_cons.mp hnd).2 n _ _

theorem range_reverse_get (n i : Nat) (h : i < ((List.range n).reverse).length) :
    ((List.range n).reverse).get ⟨i, h⟩ = n - 1 - i := by
  rw [List.get_eq_getElem, List.getElem_reverse]
  simp

/-- With distinct priority codes, position `i` of the priority list is
ranked `n - 1 - i`: the front of the list carries the greatest rank. -/
theorem priorityMap_get (pl : List String) (hnd : pl.Nodup) (i : Nat)
    (hi : i < pl.length) :
    dictFind (priorityMap pl) (pl.get ⟨i, hi⟩) = some (pl.length - 1 - i) := by
  unfold priorityMap
  have hlen : pl.length ≤ ((List.range pl.length).reverse).length := by simp
  have hkeys :
      ((pl.zip (List.range pl.length).reverse).map (fun p => p.1)).Nodup := by
    rw [show (fun p : String × Nat => p.1) = Prod.fst from rfl,
      List.map_fst_zip _ _ hlen]
    exact hnd
  rw [pyDictOfList_eq_self _ hkeys,
    dictFind_zip pl _ hnd i hi (by simpa using hi), range_reverse_get]

/-! ### Claim C1 -/

/-- The `"IEA"` raw record of the end-to-end scenario. -/
def annIEA : Annot := { subjectId := "G1", objectId := "T1", evidenceType := "IEA" }

/-- The `"EXP"` raw record of the end-to-end scenario. -/
def annEXP : Annot := { subjectId := "G1", objectId := "T1", evidenceType := "EXP" }

/-- The association set holding both scenario records for gene `G1`. -/
def dsIEAEXP : AssocSet := create_from_assocs [annIEA, annEXP]

/-- Claim C1 fails on the code: with `priority_list = ["IEA", "EXP"]` the
rank map is `{IEA ↦ 1, EXP ↦ 0}` — position 0 gets the highest rank, not
the lowest — and `get_annotations_for_gene` returns the `"IEA"`
annotation, not the `"EXP"` one. -/
theorem priority_position_zero_lowest_counterexample :
    get_annotations_for_gene dsIEAEXP (fun _ => false) "G1" false false
      ["IEA", "EXP"] = [annIEA]
    ∧ get_annotations_for_gene dsIEAEXP (fun _ => false) "G1" false false
      ["IEA", "EXP"] ≠ [annEXP]
    ∧ dictFind (priorityMap ["IEA", "EXP"]) "IEA" = some 1
    ∧ dictFind (priorityMap ["IEA", "EXP"]) "EXP" = some 0 :=
  ⟨by decide, by decide, by decide, by decide⟩

/-- Claim C1 (amended): for every duplicate-free priority list, the
priority rank gives position 0 the HIGHEST priority (rank `n - 1 - index`,
so earlier entries in the list win); in particular, for the two scenario
annotations with evidence `"IEA"` and `"EXP"` and
`priority_list = ["IEA", "EXP"]`, `get_annotations_for_gene` returns the
`"IEA"` annotation. -/
theorem priority_rank_earlier_entries_win (pl : List String) (hnd : pl.Nodup)
    (i j : Nat) (hi : i < pl.length) (hj : j < pl.length) (hij : i < j) :
    dictFind (priorityMap pl) (pl.get ⟨i, hi⟩) = some (pl.length - 1 - i)
    ∧ dictFind (priorityMap pl) (pl.get ⟨j, hj⟩) = some (pl.length - 1 - j)
    ∧ pl.length - 1 - j < pl.length - 1 - i
    ∧ get_annotations_for_gene dsIEAEXP (fun _ => false) "G1" false false
        ["IEA", "EXP"] = [annIEA] :=
  ⟨priorityMap_get pl hnd i hi, priorityMap_get pl hnd j hj, by omega, by decide⟩

/-- Witness for the amended C1 at `pl = ["IEA", "EXP"]`, `i = 0`, `j = 1`. -/
theorem priority_rank_earlier_entries_win_witness :
    (["IEA", "EXP"] : List String).Nodup
    ∧ (dictFind (priorityMap ["IEA", "EXP"]) "IEA" = some 1
       ∧ dictFind (priorityMap ["IEA", "EXP"]) "EXP" = some 0
       ∧ (0 : Nat) < 1
       ∧ get_annotations_for_gene dsIEAEXP (fun _ => false) "G1" false false
           ["IEA", "EXP"] = [annIEA]) := by
  have h := priority_rank_earlier_entries_win ["IEA", "EXP"] (by decide) 0 1
    (by decide) (by decide) (by decide)
  exact ⟨by decide, h.1, h.2.1, by decide, h.2.2.2⟩

/-! ### Selection-loop invariants (C3, C4) -/

/-- Invariant of the `id_selected_annotation` dict: keys are distinct, and
every stored record's term id equals its key. -/
def selWF (sel : List (String × Annot)) : Prop :=
  (sel.map (fun p => p.1)).Nodup ∧ ∀ p ∈ sel, p.2.objectId = p.1

theorem selWF_selectStep (pm : List (String × Nat))
    (sel : List (String × Annot)) (a : Annot) (h : selWF sel) :
    selWF (selectStep pm sel a) := by
  unfold selectStep
  cases dictFind pm a.evidenceType with
  | none => exact h
  | some rank =>
    cases hfind : dictFind sel a.objectId with
    | none =>
      constructor
      · rw [List.map_append]
        refine List.Nodup.append h.1 (by simp) ?_
        intro x hx hx2
        simp only [List.map_cons, List.map_nil, List.mem_singleton] at hx2
        subst hx2
        exact ((dictFind_eq_none sel a.objectId).mp hfind) hx
      · intro p hp
        rcases List.mem_append.mp hp with hq | hq
        · exact h.2 p hq
        · rw [List.mem_singleton.mp hq]
    | some prev =>
      dsimp only
      by_cases hlt : (dictFind pm prev.evidenceType).getD 0 < rank
      · rw [if_pos hlt]
        constructor
        · have hkeys :
              (sel.map (fun p => if p.1 = a.objectId then (p.1, a) else p)).map
                  (fun p => p.1)
                = sel.map (fun p => p.1) := by
            rw [List.map_map]
            apply List.map_congr_left
            intro p _
            by_cases hp : p.1 = a.objectId <;> simp [hp]
          rw [hkeys]
          exact h.1
        · intro p hp
          obtain ⟨q, hq, rfl⟩ := List.mem_map.mp hp
          by_cases hqa : q.1 = a.objectId
          · rw [if_pos hqa]
            exact hqa.symm
          · rw [if_neg hqa]
            exact h.2 q hq
      · rw [if_neg hlt]
        exact h

theorem selWF_foldl (pm : List (String × Nat)) (anns : List Annot) :
    ∀ sel : List (String × Annot), selWF sel →
      selWF (anns.foldl (selectStep pm) sel) := by
  induction anns with
  | nil => exact fun sel h => h
  | cons a t ih => exact fun sel h => ih _ (selWF_selectStep pm sel a h)

/-! ### Claim C3 -/

/-- Claim C3: for every gene, association set and priority list, the
mapping returned by `get_annotations_for_gene` contains at most one
annotation per distinct term id (the term ids of the returned annotations
are pairwise distinct), even when the input holds several annotations for
the same (gene, term) pair. -/
theorem get_annotations_unique_per_term (dataset : AssocSet)
    (is_obsolete : String → Bool) (gene_id : String)
    (include_obsolete include_negative_results : Bool)
    (priority_list : List String) :
    ((get_annotations_for_gene dataset is_obsolete gene_id include_obsolete
        include_negative_results priority_list).map
      (fun a => a.objectId)).Nodup := by
  unfold get_annotations_for_gene
  rw [List.map_map]
  have hwf := selWF_foldl (priorityMap priority_list)
    (filteredAnns dataset is_obsolete gene_id include_obsolete
      include_negative_results) [] ⟨List.nodup_nil, by simp⟩
  have hmap :
      (List.foldl (selectStep (priorityMap priority_list)) []
          (filteredAnns dataset is_obsolete gene_id include_obsolete
            include_negative_results)).map
          ((fun a : Annot => a.objectId) ∘ fun p : String × Annot => p.2)
        = (List.foldl (selectStep (priorityMap priority_list)) []
            (filteredAnns dataset is_obsolete gene_id include_obsolete
              include_negative_results)).map (fun p => p.1) :=
    List.map_congr_left (fun p hp => hwf.2 p hp)
  rw [hmap]
  exact hwf.1

/-! ### Claim C4 -/

theorem dictFind_map_update_ne {α : Type} (d : List (String × α))
    (k t : String) (v : α) (h : k ≠ t) :
    dictFind (d.map (fun p => if p.1 = k then (p.1, v) else p)) t
      = dictFind d t := by
  induction d with
  | nil => rfl
  | cons p rest ih =>
    simp only [List.map_cons]
    by_cases hp : p.1 = k
    · have hpt : p.1 ≠ t := by rw [hp]; exact h
      rw [if_pos hp]
      simp [dictFind, hpt, ih]
    · rw [if_neg hp]
      by_cases hpt : p.1 = t
      · simp [dictFind, hpt]
      · simp [dictFind, hpt, ih]

theorem dictFind_selectStep_ne (pm : List (String × Nat))
    (sel : List (String × Annot)) (a : Annot) (t : String)
    (h : a.objectId ≠ t) :
    dictFind (selectStep pm sel a) t = dictFind sel t := by
  unfold selectStep
  cases dictFind pm a.evidenceType with
  | none => rfl
  | some rank =>
    cases dictFind sel a.objectId with
    | none =>
      rw [dictFind_append]
      cases hf : dictFind sel t with
      | some v => rfl
      | none => simp [dictFind, h]
    | some prev =>
      dsimp only
      by_cases hlt : (dictFind pm prev.evidenceType).getD 0 < rank
      · rw [if_pos hlt]
        exact dictFind_map_update_ne sel a.objectId t a h
      · rw [if_neg hlt]

/-- Once a record with the common rank is selected for a term, later
records of that same rank never displace it. -/
theorem select_keeps_selected (pm : List (String × Nat)) (t : String) (r : Nat)
    (anns : List Annot)
    (hall : ∀ a ∈ anns, a.objectId = t → dictFind pm a.evidenceType = some r) :
    ∀ (sel : List (String × Annot)) (prev : Annot),
      dictFind sel t = some prev → dictFind pm prev.evidenceType = some r →
      dictFind (anns.foldl (selectStep pm) sel) t = some prev := by
  induction anns with
  | nil => exact fun sel prev hsel _ => hsel
  | cons a rest ih =>
    intro sel prev hsel hprev
    have hall' : ∀ b ∈ rest, b.objectId = t → dictFind pm b.evidenceType = some r :=
      fun b hb => hall b (List.mem_cons_of_mem a hb)
    rw [List.foldl_cons]
    by_cases hat : a.objectId = t
    · have hstep : selectStep pm sel a = sel := by
        simp [selectStep, hall a (List.mem_cons_self a rest) hat, hat, hsel, hprev]
      rw [hstep]
      exact ih hall' sel prev hsel hprev
    · exact ih hall' (selectStep pm sel a)
        prev (by rw [dictFind_selectStep_ne pm sel a t hat]; exact hsel) hprev

/-- Under a uniform rank for a term, the selection loop keeps the first
record for that term encountered in input order. -/
theorem select_first_wins (pm : List (String × Nat)) (t : String) (r : Nat)
    (anns : List Annot)
    (hall : ∀ a ∈ anns, a.objectId = t → dictFind pm a.evidenceType = some r) :
    ∀ sel : List (String × Annot), dictFind sel t = none →
      dictFind (anns.foldl (selectStep pm) sel) t
        = anns.find? (fun a => a.objectId = t) := by
  induction anns with
  | nil =>
    intro sel hsel
    rw [List.find?_nil]
    exact hsel
  | cons a rest ih =>
    intro sel hsel
    have hall' : ∀ b ∈ rest, b.objectId = t → dictFind pm b.evidenceType = some r :=
      fun b hb => hall b (List.mem_cons_of_mem a hb)
    rw [List.foldl_cons]
    by_cases hat : a.objectId = t
    · have hr := hall a (List.mem_cons_self a rest) hat
      have hstep : selectStep pm sel a = sel ++ [(t, a)] := by
        simp [selectStep, hr, hat, hsel]
      have hfind : dictFind (selectStep pm sel a) t = some a := by
        rw [hstep, dictFind_append, hsel]
        simp [dictFind]
      rw [select_keeps_selected pm t r rest hall' (selectStep pm sel a) a hfind hr,
        List.find?_cons_of_pos _ (by simp [hat])]
    · have hsel' : dictFind (selectStep pm sel a) t = none := by
        rw [dictFind_selectStep_ne pm sel a t hat]
        exact hsel
      rw [ih hall' (selectStep pm sel a) hsel',
        List.find?_cons_of_neg _ (by simp [hat])]

/-- Looking for a term in the emitted values list is looking it up in the
selection dict, provided the dict is well formed. -/
theorem find?_map_snd (sel : List (String × Annot)) (t : String)
    (h : ∀ p ∈ sel, p.2.objectId = p.1) :
    (sel.map (fun p => p.2)).find? (fun a => a.objectId = t)
      = dictFind sel t := by
  induction sel with
  | nil => rfl
  | cons p rest ih =>
    simp only [List.map_cons]
    have hp := h p (List.mem_cons_self p rest)
    by_cases hpt : p.1 = t
    · rw [List.find?_cons_of_pos _ (by simp [hp, hpt])]
      simp [dictFind, hpt]
    · rw [List.find?_cons_of_neg _ (by simp [hp, hpt]),
        ih (fun q hq => h q (List.mem_cons_of_mem p hq))]
      simp [dictFind, hpt]

/-- Claim C4: in `get_annotations_for_gene`, when the annotations for a
term id all carry equal priority rank, the annotation encountered first in
the input order is the one selected, for every input size and ordering. -/
theorem tie_first_encountered_wins (dataset : AssocSet)
    (is_obsolete : String → Bool) (gene_id : String)
    (include_obsolete include_negative_results : Bool)
    (priority_list : List String) (t : String) (r : Nat)
    (hall : ∀ a ∈ filteredAnns dataset is_obsolete gene_id include_obsolete
        include_negative_results,
      a.objectId = t →
        dictFind (priorityMap priority_list) a.evidenceType = some r) :
    (get_annotations_for_gene dataset is_obsolete gene_id include_obsolete
        include_negative_results priority_list).find? (fun a => a.objectId = t)
      = (filteredAnns dataset is_obsolete gene_id include_obsolete
          include_negative_results).find? (fun a => a.objectId = t) := by
  unfold get_annotations_for_gene
  rw [find?_map_snd _ t (selWF_foldl _ _ [] ⟨List.nodup_nil, by simp⟩).2]
  exact select_first_wins _ t r _ hall [] rfl

/-- First scenario record for the C4 witness. -/
def annEXPa : Annot :=
  { subjectId := "G1", objectId := "T1", evidenceType := "EXP",
    providedBy := "first" }

/-- Second scenario record for the C4 witness, same term and rank. -/
def annEXPb : Annot :=
  { subjectId := "G1", objectId := "T1", evidenceType := "EXP",
    providedBy := "second" }

/-- The association set holding the two tied records. -/
def dsTie : AssocSet := create_from_assocs [annEXPa, annEXPb]

/-- Witness for C4: two tied `"EXP"` records for term `T1`; the selected
record is the first of the filtered input. -/
theorem tie_first_encountered_wins_witness :
    (∀ a ∈ filteredAnns dsTie (fun _ => false) "G1" false false,
      a.objectId = "T1" →
        dictFind (priorityMap ["EXP"]) a.evidenceType = some 0)
    ∧ (get_annotations_for_gene dsTie (fun _ => false) "G1" false false
        ["EXP"]).find? (fun a => a.objectId = "T1")
      = (filteredAnns dsTie (fun _ => false) "G1" false false).find?
          (fun a => a.objectId = "T1") :=
  ⟨by decide,
    tie_first_encountered_wins dsTie (fun _ => false) "G1" false false
      ["EXP"] "T1" 0 (by decide)⟩

/-! ### Rich-text parsing lemmas (C2) -/

/-- The record contributed by one rich-text data row: `some a` when the
row is accepted, `none` when it is filtered out (or would raise). -/
def richRowResult (node : String → Bool) (r : String) : Option Annot :=
  match parseRichRow node r with
  | some (some a) => some a
  | _ => none

/-- A record accepted from a rich-text row references a term of the
disease ontology and does not carry evidence `"IEA"`. -/
theorem parseRichRow_included (node : String → Bool) (line : String)
    (a : Annot) (h : parseRichRow node line = some (some a)) :
    node a.objectId = true ∧ a.evidenceType ≠ "IEA" := by
  simp only [parseRichRow] at h
  split at h
  · exact absurd h (by simp)
  rename_i termId hterm
  split at h
  · exact absurd h (by simp)
  rename_i hnode
  split at h
  · exact absurd h (by simp)
  rename_i ev hev
  split at h
  · exact absurd h (by simp)
  rename_i hiea
  split at h
  · rename_i taxon subjId subjLabel quals refs date provider c
      h0 h2 h3 h9 h18 h19 h20 hc
    cases h
    exact ⟨by simpa using hnode, by simpa using hiea⟩
  · exact absurd h (by simp)

/-- A rich-text row that is dropped (without raising) is dropped only
because its referenced term is missing from the disease ontology or its
evidence type is `"IEA"`. -/
theorem parseRichRow_dropped (node : String → Bool) (line : String)
    (h : parseRichRow node line = some none) :
    ∃ t, (pySplit (pyStrip line) '\t').get? 10 = some t
      ∧ (node t = false
         ∨ (pySplit (pyStrip line) '\t').get? 16 = some "IEA") := by
  simp only [parseRichRow] at h
  split at h
  · exact absurd h (by simp)
  rename_i termId hterm
  split at h
  · rename_i hnode
    exact ⟨termId, hterm, Or.inl hnode⟩
  rename_i hnode
  split at h
  · exact absurd h (by simp)
  rename_i ev hev
  split at h
  · rename_i hiea
    exact ⟨termId, hterm, Or.inr (hiea ▸ hev)⟩
  rename_i hiea
  split at h
  · exact absurd h (by simp)
  · exact absurd h (by simp)

/-- A successful parse of the rich-text lines is exactly the per-data-row
accepted records, in order. -/
theorem parseRichLines_eq (node : String → Bool) (lines : List String) :
    ∀ (hdr : Bool) (out : List Annot),
      parseRichLines node lines hdr = some out →
      out = (dataRows lines hdr).filterMap (richRowResult node) := by
  induction lines with
  | nil =>
    intro hdr out h
    simp only [parseRichLines] at h
    cases h
    simp [dataRows]
  | cons line rest ih =>
    intro hdr out h
    simp only [parseRichLines] at h
    simp only [dataRows]
    by_cases hc : pyStartsWith (pyStrip line) "!" = true
    · rw [if_pos hc] at h
      rw [if_pos hc]
      exact ih hdr out h
    · rw [if_neg hc] at h
      rw [if_neg hc]
      cases hdr with
      | true =>
        rw [if_pos rfl] at h
        rw [if_pos rfl]
        exact ih false out h
      | false =>
        rw [if_neg (by simp)] at h
        rw [if_neg (by simp)]
        cases hrow : parseRichRow node line with
        | none =>
          rw [hrow] at h
          exact absurd h (by simp)
        | some o =>
          rw [hrow] at h
          cases o with
          | none =>
            dsimp only at h
            rw [List.filterMap_cons]
            simp only [richRowResult, hrow]
            exact ih false out h
          | some a =>
            dsimp only at h
            cases hrest : parseRichLines node rest false with
            | none =>
              rw [hrest] at h
              exact absurd h (by simp)
            | some l =>
              rw [hrest] at h
              simp only [Option.map_some'] at h
              cases h
              rw [List.filterMap_cons]
              simp only [richRowResult, hrow]
              rw [ih false l hrest]

/-! ### Claim C2 -/

/-- Claim C2: the merged disease raw-record stream produced by the DO
branch of `load_associations_from_file` is exactly the concatenation of
(a) the tabular-source records whose evidence type equals `"IEA"` and
(b) the rich-text rows whose referenced term exists in the disease
ontology and whose evidence type is not `"IEA"`; a row dropped from the
rich-text source was dropped only for having an unknown term or `"IEA"`
evidence, so no row from either source with the wrong evidence type for
its format is included. -/
theorem do_merged_partition (tab : List Annot) (node : String → Bool)
    (lines : List String) (m : List Annot)
    (h : doMergedStream tab node lines = some m) :
    m = (allAssociations (create_from_assocs tab)).filter
          (fun a => a.evidenceType = "IEA")
        ++ (dataRows lines true).filterMap (richRowResult node)
    ∧ (∀ a ∈ (allAssociations (create_from_assocs tab)).filter
          (fun a => a.evidenceType = "IEA"), a.evidenceType = "IEA")
    ∧ (∀ a ∈ (dataRows lines true).filterMap (richRowResult node),
        node a.objectId = true ∧ a.evidenceType ≠ "IEA")
    ∧ (∀ r, parseRichRow node r = some none →
        ∃ t, (pySplit (pyStrip r) '\t').get? 10 = some t
          ∧ (node t = false
             ∨ (pySplit (pyStrip r) '\t').get? 16 = some "IEA")) := by
  unfold doMergedStream at h
  cases hrich : parseRichLines node lines true with
  | none =>
    rw [hrich] at h
    exact absurd h (by simp)
  | some rich =>
    rw [hrich] at h
    simp only [Option.map_some'] at h
    cases h
    refine ⟨?_, ?_, ?_, ?_⟩
    · rw [parseRichLines_eq node lines true rich hrich]
    · intro a ha
      simpa using (List.mem_filter.mp ha).2
    · intro a ha
      obtain ⟨r, hr, hra⟩ := List.mem_filterMap.mp ha
      have hps : parseRichRow node r = some (some a) := by
        unfold richRowResult at hra
        split at hra
        · rename_i a' heq
          cases hra
          exact heq
        · exact absurd hra (by simp)
      exact parseRichRow_included node r a hps
    · exact fun r hr => parseRichRow_dropped node r hr

/-- Tabular input of the C2 witness (one `"IEA"` and one `"EXP"` record). -/
def tabC2 : List Annot := [annIEA, annEXP]

/-- One well-formed rich-text data row with a known term and `"EXP"`
evidence. -/
def richLineC2 : String :=
  "6239\tgene\tWB:G1\tlbl\tf4\tf5\tf6\tf7\tf8\t\tDOID:1\tf11\tf12\tf13\tf14\tf15\tEXP\tf17\tref1|ref2\t2020\tWB"

/-- Disease-ontology membership test of the C2 witness. -/
def nodeC2 : String → Bool := fun t => t = "DOID:1"

/-- Rich-text file of the C2 witness: a comment, the header, one data row. -/
def linesC2 : List String := ["! comment", "header", richLineC2]

/-- The merged stream of the C2 witness. -/
def mC2 : List Annot := (doMergedStream tabC2 nodeC2 linesC2).getD []

/-- Witness for C2: the concrete merge succeeds and splits as claimed. -/
theorem do_merged_partition_witness :
    doMergedStream tabC2 nodeC2 linesC2 = some mC2
    ∧ mC2 = (allAssociations (create_from_assocs tabC2)).filter
          (fun a => a.evidenceType = "IEA")
        ++ (dataRows linesC2 true).filterMap (richRowResult nodeC2) :=
  ⟨rfl, (do_merged_partition tabC2 nodeC2 linesC2 mC2 rfl).1⟩

end GeneDesc
